import Mathlib

/-!
# basic-golang-api: a shallow embedding of `main.go`

The service keeps two package-level maps (`books`, `users`), wraps the
protected routes in `authMiddleware`, and serves five handlers.  Each handler
is embedded as a pure function from the state it reads (the `books` map, the
decoded request body, the path variable) to the response it writes and the
state it leaves behind.

Library calls whose code lives outside `main.go` are parameters of the
embedding:

* `json.NewDecoder(r.Body).Decode(&v)` is represented by its outcome: which
  fields of `v` it assigned and whether it returned an error;
* `jwt.Parse(tokenString, keyFunc)` is represented by the predicate
  "`err == nil && token.Valid`" on the token string;
* `token.SignedString(jwtSecret)` is represented by a function from the claims
  and the key to the signed string, or nothing when it returns an error.
-/

namespace BasicGolangApi

/-! ## Go values -/

/-- Go `string`: a sequence of bytes; `len` is `List.length`. -/
abbrev GoString := List UInt8

/-- The bytes of a Go string literal (Go source text is UTF-8). -/
def lit (s : String) : GoString := s.toUTF8.data.toList

/-- Go slice expression `s[lo:]` on a string: a run-time panic when `lo > len(s)`. -/
def sliceFrom (s : GoString) (lo : Nat) : Option GoString :=
  if lo ≤ s.length then some (s.drop lo) else none

/-- Go `map[string]V`: lookup by key, `none` when the key is not present. -/
abbrev GoMap (V : Type) := GoString → Option V

/-- The empty map. -/
def GoMap.empty {V : Type} : GoMap V := fun _ => none

/-- Go `m[k] = v`. -/
def GoMap.set {V : Type} (m : GoMap V) (k : GoString) (v : V) : GoMap V :=
  fun j => if j = k then some v else m j

/-- Go `delete(m, k)`. -/
def GoMap.delete {V : Type} (m : GoMap V) (k : GoString) : GoMap V :=
  fun j => if j = k then none else m j

/-- Go `_, exists := m[k]`. -/
def GoMap.has {V : Type} (m : GoMap V) (k : GoString) : Bool := (m k).isSome

/-! ## Data model (`main.go` lines 16-41) -/

/-- Go `type Book struct`. -/
structure Book where
  ID : GoString
  Title : GoString
  Author : GoString
deriving DecidableEq, Repr

/-- Go `type User struct`. -/
structure User where
  ID : GoString
  Username : GoString
  Password : GoString
deriving DecidableEq, Repr

/-- The zero value of `Book`. -/
def Book.zero : Book := ⟨[], [], []⟩

/-- The zero value of `User`. -/
def User.zero : User := ⟨[], [], []⟩

/-- Go `var books = map[string]Book{...}`: the initial book storage. -/
def books : GoMap Book :=
  (GoMap.empty.set (lit "1") ⟨lit "1", lit "1984", lit "George Orwell"⟩).set
    (lit "2") ⟨lit "2", lit "To Kill a Mockingbird", lit "Harper Lee"⟩

/-- Go `var users = map[string]User{...}`: the user storage (never written). -/
def users : GoMap User :=
  ((GoMap.empty.set (lit "admin") ⟨lit "1", lit "admin", lit "password123"⟩).set
    (lit "user1") ⟨lit "2", lit "user1", lit "securepass"⟩).set
    (lit "john_doe") ⟨lit "3", lit "john_doe", lit "mypassword"⟩

/-! ## HTTP responses -/

def StatusOK : Nat := 200
def StatusCreated : Nat := 201
def StatusNoContent : Nat := 204
def StatusBadRequest : Nat := 400
def StatusUnauthorized : Nat := 401
def StatusNotFound : Nat := 404
def StatusConflict : Nat := 409
def StatusInternalServerError : Nat := 500

/-- What a handler writes as the response body. -/
inductive Payload
  | text (msg : GoString)
  | book (b : Book)
  | token (tokenString : GoString)
  | empty
deriving DecidableEq, Repr

/-- Status code and body of the response a handler writes. -/
structure Response where
  status : Nat
  body : Payload
deriving DecidableEq, Repr

/-- Go `http.Error(w, msg, code)`. -/
def httpError (msg : GoString) (code : Nat) : Response := ⟨code, .text msg⟩

/-! ## Decoded request bodies -/

/-- Outcome of `json.NewDecoder(r.Body).Decode(&book)` on a `Book`: the fields
the decoder assigned (a field absent from the body is left alone) and whether
it returned an error. -/
structure BookBody where
  ID : Option GoString
  Title : Option GoString
  Author : Option GoString
  err : Bool
deriving DecidableEq, Repr

/-- The value of the target variable after decoding into it. -/
def BookBody.decodeInto (body : BookBody) (book : Book) : Book :=
  ⟨body.ID.getD book.ID, body.Title.getD book.Title, body.Author.getD book.Author⟩

/-- An empty request body: the decoder returns `io.EOF` and assigns nothing. -/
def BookBody.none : BookBody := ⟨.none, .none, .none, true⟩

/-- A body carrying all three fields of `b`, decoded without error. -/
def BookBody.ofBook (b : Book) : BookBody := ⟨some b.ID, some b.Title, some b.Author, false⟩

/-- The anonymous struct `creds` of `generateToken`. -/
structure Creds where
  Username : GoString
  Password : GoString
deriving DecidableEq, Repr

/-- Outcome of `json.NewDecoder(r.Body).Decode(&creds)`. -/
structure CredsBody where
  Username : Option GoString
  Password : Option GoString
  err : Bool
deriving DecidableEq, Repr

/-- The value of `creds` after decoding into it. -/
def CredsBody.decodeInto (body : CredsBody) (creds : Creds) : Creds :=
  ⟨body.Username.getD creds.Username, body.Password.getD creds.Password⟩

/-! ## `authMiddleware` (`main.go` lines 66-92) -/

/-- How one run of the middleware's handler function ends. -/
inductive Served
  | response (r : Response)
  | next
  | panic
deriving DecidableEq, Repr

/-- Go `authMiddleware`, as a function of the `Authorization` header value
(`r.Header.Get` gives `""` when the header is absent).  `tokenOk tokenString`
stands for `err == nil && token.Valid` after `jwt.Parse(tokenString, keyFunc)`. -/
def authMiddleware (tokenOk : GoString → Bool) (authHeader : GoString) : Served :=
  if authHeader = [] then
    .response (httpError (lit "Missing token") StatusUnauthorized)
  else
    match sliceFrom authHeader (lit "Bearer ").length with
    | Option.none => .panic
    | some tokenString =>
      if !tokenOk tokenString then
        .response (httpError (lit "Invalid token") StatusUnauthorized)
      else
        .next

/-! ## `generateToken` (`main.go` lines 95-125) -/

/-- Go `jwt.MapClaims{"username": ..., "exp": ...}` as built by `generateToken`. -/
structure MapClaims where
  username : GoString
  exp : Int
deriving DecidableEq, Repr

/-- Go `generateToken`.  `signedString claims key` stands for
`jwt.NewWithClaims(jwt.SigningMethodHS256, claims).SignedString(key)`, `now` for
`time.Now()` in Unix seconds. -/
def generateToken (signedString : MapClaims → GoString → Option GoString)
    (jwtSecret : GoString) (now : Int) (body : CredsBody) : Response :=
  let creds := body.decodeInto ⟨[], []⟩
  if body.err then
    httpError (lit "Invalid request payload") StatusBadRequest
  else
    let user := (users creds.Username).getD User.zero
    let found := users.has creds.Username
    if !found || user.Password ≠ creds.Password then
      httpError (lit "Invalid username or password") StatusUnauthorized
    else
      match signedString ⟨creds.Username, now + 3600⟩ jwtSecret with
      | Option.none => httpError (lit "Error generating token") StatusInternalServerError
      | some tokenString => ⟨StatusOK, .token tokenString⟩

/-- Lines 113-124 of `generateToken`, the step reached once the credentials
are accepted: sign the claims `username`, `exp = now + 3600` and answer 200
with the token, or 500 when signing fails. -/
def issueToken (signedString : MapClaims → GoString → Option GoString)
    (jwtSecret : GoString) (now : Int) (username : GoString) : Response :=
  match signedString ⟨username, now + 3600⟩ jwtSecret with
  | Option.none => httpError (lit "Error generating token") StatusInternalServerError
  | some tokenString => ⟨StatusOK, .token tokenString⟩

/-! ## Book handlers (`main.go` lines 134-219)

Each handler returns the response together with the `books` map it leaves. -/

/-- Go `getBookDetail` (GET /books/{id}). -/
def getBookDetail (books : GoMap Book) (id : GoString) (body : BookBody) :
    Response × GoMap Book :=
  let book := (books id).getD Book.zero
  let found := books.has id
  if !found then
    (httpError (lit "Book not found") StatusNotFound, books)
  else
    let book := body.decodeInto book
    let book := { book with ID := id }
    let books := books.set id book
    (⟨StatusOK, .book book⟩, books)

/-- Go `createBook` (POST /books). -/
def createBook (books : GoMap Book) (body : BookBody) : Response × GoMap Book :=
  let newBook := body.decodeInto Book.zero
  if body.err then
    (httpError (lit "Invalid request payload") StatusBadRequest, books)
  else if newBook.ID = [] then
    (httpError (lit "Book ID is required") StatusBadRequest, books)
  else if books.has newBook.ID then
    (httpError (lit "Book ID already exists") StatusConflict, books)
  else
    let books := books.set newBook.ID newBook
    (⟨StatusCreated, .book newBook⟩, books)

/-- Go `updateBook` (PUT /books/{id}). -/
def updateBook (books : GoMap Book) (id : GoString) (body : BookBody) :
    Response × GoMap Book :=
  let book := (books id).getD Book.zero
  let found := books.has id
  if !found then
    (httpError (lit "Book not found") StatusNotFound, books)
  else
    let book := body.decodeInto book
    let book := { book with ID := id }
    let books := books.set id book
    (⟨StatusOK, .book book⟩, books)

/-- Go `deleteBook` (DELETE /books/{id}). -/
def deleteBook (books : GoMap Book) (id : GoString) : Response × GoMap Book :=
  if !books.has id then
    (httpError (lit "Book not found") StatusNotFound, books)
  else
    let books := books.delete id
    (⟨StatusNoContent, .empty⟩, books)

/-! ## Sequences of handler calls -/

/-- One call of a handler that touches the `books` map, with its path variable
and decoded body. -/
inductive Call
  | createBook (body : BookBody)
  | updateBook (id : GoString) (body : BookBody)
  | getBookDetail (id : GoString) (body : BookBody)
  | deleteBook (id : GoString)
deriving DecidableEq, Repr

/-- The `books` map after one call. -/
def Call.run (c : Call) (m : GoMap Book) : GoMap Book :=
  match c with
  | .createBook body => (BasicGolangApi.createBook m body).2
  | .updateBook id body => (BasicGolangApi.updateBook m id body).2
  | .getBookDetail id body => (BasicGolangApi.getBookDetail m id body).2
  | .deleteBook id => (BasicGolangApi.deleteBook m id).2

/-- The `books` map after a sequence of calls, first call first. -/
def runCalls (m : GoMap Book) (cs : List Call) : GoMap Book :=
  cs.foldl (fun m c => c.run m) m

/-- Every entry of the map is stored under its own `ID`. -/
def KeysMatchIDs (m : GoMap Book) : Prop :=
  ∀ k b, m k = some b → b.ID = k

/-! ## Properties of `authMiddleware` -/

/-- A header of fewer than seven bytes that is not empty makes the slice
expression panic, whatever the token check would answer. -/
theorem authMiddleware_short_header (tokenOk : GoString → Bool) (authHeader : GoString)
    (hne : authHeader ≠ []) (hlen : authHeader.length < 7) :
    authMiddleware tokenOk authHeader = .panic := by
  have h7 : (lit "Bearer ").length = 7 := by decide
  have : ¬ (7 ≤ authHeader.length) := by omega
  simp [authMiddleware, hne, sliceFrom, h7, this]

/-- A header of at least seven bytes is judged by its tail alone: the first
seven bytes are never compared with anything. -/
theorem authMiddleware_long_header (tokenOk : GoString → Bool) (junk tok : GoString)
    (hlen : junk.length = 7) :
    authMiddleware tokenOk (junk ++ tok) =
      if tokenOk tok then .next
      else .response (httpError (lit "Invalid token") StatusUnauthorized) := by
  have h7 : (lit "Bearer ").length = 7 := by decide
  have hne : junk ++ tok ≠ [] := by
    intro h
    have := congrArg List.length h
    simp [hlen] at this
  have hdrop : (junk ++ tok).drop 7 = tok := by
    rw [← hlen]; exact List.drop_left _ _
  have hle : 7 ≤ (junk ++ tok).length := by simp [hlen]
  unfold authMiddleware
  rw [if_neg hne, h7]
  unfold sliceFrom
  rw [if_pos hle, hdrop]
  cases h : tokenOk tok <;> simp [h]

/-- C1, evaluated on the code: the header `Token: x.y.z` does not start with
`Bearer `, yet with a token check that accepts `x.y.z` the middleware calls the
wrapped handler instead of answering 401. -/
theorem authMiddleware_non_bearer_reaches_next :
    ¬ (lit "Bearer " <+: lit "Token: x.y.z") ∧
    authMiddleware (fun t => decide (t = lit "x.y.z")) (lit "Token: x.y.z") = .next := by
  decide

/-- C10, evaluated on the code: on the non-empty header `abc` the slice
`authHeader[len("Bearer "):]` is out of range, so the middleware neither writes
401 nor calls the wrapped handler, whatever the token check is. -/
theorem authMiddleware_abc_panics (tokenOk : GoString → Bool) :
    lit "abc" ≠ [] ∧ authMiddleware tokenOk (lit "abc") = .panic :=
  ⟨by decide, authMiddleware_short_header tokenOk (lit "abc") (by decide) (by decide)⟩

/-! ## Properties of the `books` map operations -/

theorem GoMap.set_self {V : Type} (m : GoMap V) (k : GoString) (v : V) :
    m.set k v k = some v := by
  simp [GoMap.set]

theorem GoMap.set_other {V : Type} (m : GoMap V) (k j : GoString) (v : V) (h : j ≠ k) :
    m.set k v j = m j := by
  simp [GoMap.set, h]

theorem GoMap.delete_self {V : Type} (m : GoMap V) (k : GoString) :
    m.delete k k = none := by
  simp [GoMap.delete]

theorem GoMap.has_eq_false_iff {V : Type} (m : GoMap V) (k : GoString) :
    m.has k = false ↔ m k = none := by
  simp [GoMap.has]

theorem GoMap.has_eq_true_iff {V : Type} (m : GoMap V) (k : GoString) :
    m.has k = true ↔ ∃ v, m k = some v := by
  simp [GoMap.has, Option.isSome_iff_exists]

/-- Storing a book whose `ID` is the key keeps every entry under its own `ID`. -/
theorem KeysMatchIDs.set {m : GoMap Book} (h : KeysMatchIDs m) (k : GoString) (b : Book)
    (hb : b.ID = k) : KeysMatchIDs (m.set k b) := by
  intro j c hj
  by_cases hjk : j = k
  · subst hjk
    rw [GoMap.set_self] at hj
    cases hj
    exact hb
  · rw [GoMap.set_other _ _ _ _ hjk] at hj
    exact h j c hj

/-- Deleting a key keeps every remaining entry under its own `ID`. -/
theorem KeysMatchIDs.delete {m : GoMap Book} (h : KeysMatchIDs m) (k : GoString) :
    KeysMatchIDs (m.delete k) := by
  intro j c hj
  by_cases hjk : j = k
  · subst hjk
    rw [GoMap.delete_self] at hj
    cases hj
  · have : m.delete k j = m j := by simp [GoMap.delete, hjk]
    rw [this] at hj
    exact h j c hj

theorem KeysMatchIDs.books : KeysMatchIDs books := by
  intro k b hk
  unfold BasicGolangApi.books GoMap.set GoMap.empty at hk
  split at hk
  · cases hk; simp_all
  · split at hk
    · cases hk; simp_all
    · cases hk

theorem KeysMatchIDs.createBook {m : GoMap Book} (h : KeysMatchIDs m) (body : BookBody) :
    KeysMatchIDs (createBook m body).2 := by
  unfold BasicGolangApi.createBook
  simp only
  split
  · exact h
  · split
    · exact h
    · split
      · exact h
      · exact h.set _ _ rfl

theorem KeysMatchIDs.updateBook {m : GoMap Book} (h : KeysMatchIDs m) (id : GoString)
    (body : BookBody) : KeysMatchIDs (updateBook m id body).2 := by
  unfold BasicGolangApi.updateBook
  simp only
  split
  · exact h
  · exact h.set _ _ rfl

theorem KeysMatchIDs.getBookDetail {m : GoMap Book} (h : KeysMatchIDs m) (id : GoString)
    (body : BookBody) : KeysMatchIDs (getBookDetail m id body).2 := by
  unfold BasicGolangApi.getBookDetail
  simp only
  split
  · exact h
  · exact h.set _ _ rfl

theorem KeysMatchIDs.deleteBook {m : GoMap Book} (h : KeysMatchIDs m) (id : GoString) :
    KeysMatchIDs (deleteBook m id).2 := by
  unfold BasicGolangApi.deleteBook
  split
  · exact h
  · exact h.delete _

theorem KeysMatchIDs.run {m : GoMap Book} (h : KeysMatchIDs m) (c : Call) :
    KeysMatchIDs (c.run m) := by
  cases c with
  | createBook body => exact h.createBook body
  | updateBook id body => exact h.updateBook id body
  | getBookDetail id body => exact h.getBookDetail id body
  | deleteBook id => exact h.deleteBook id

theorem KeysMatchIDs.runCalls (cs : List Call) :
    ∀ {m : GoMap Book}, KeysMatchIDs m → KeysMatchIDs (runCalls m cs) := by
  induction cs with
  | nil => intro m h; exact h
  | cons c cs ih =>
    intro m h
    show KeysMatchIDs (BasicGolangApi.runCalls (c.run m) cs)
    exact ih (h.run c)

/-- C2: after any finite sequence of `createBook`, `updateBook`, `getBookDetail`
and `deleteBook` calls on the initial `books` map, with any path ids and any
request bodies, every entry `(k, b)` of the map has `b.ID = k`. -/
theorem books_keys_match_ids (cs : List Call) (k : GoString) (b : Book)
    (h : runCalls books cs k = some b) : b.ID = k :=
  KeysMatchIDs.runCalls cs KeysMatchIDs.books k b h

/-- C2 at a concrete run: a create of id `3`, then an update of `1` whose body
carries the id `9`; the record under `1` still has id `1`. -/
theorem books_keys_match_ids_witness :
    runCalls books
        [.createBook (.ofBook ⟨lit "3", lit "Dune", lit "Frank Herbert"⟩),
         .updateBook (lit "1") ⟨some (lit "9"), some (lit "Animal Farm"), none, false⟩]
        (lit "1") = some ⟨lit "1", lit "Animal Farm", lit "George Orwell"⟩ ∧
    (⟨lit "1", lit "Animal Farm", lit "George Orwell"⟩ : Book).ID = lit "1" :=
  ⟨by decide,
   books_keys_match_ids
     [.createBook (.ofBook ⟨lit "3", lit "Dune", lit "Frank Herbert"⟩),
      .updateBook (lit "1") ⟨some (lit "9"), some (lit "Animal Farm"), none, false⟩]
     (lit "1") ⟨lit "1", lit "Animal Farm", lit "George Orwell"⟩ (by decide)⟩

/-! ## `createBook` -/

/-- C3: for a body decoded without error, with `b` the decoded book,
`createBook` answers 400 exactly when `b.ID` is empty, 409 exactly when `b.ID`
is non-empty and already a key, and otherwise answers 201 with `b` and stores
`b` under `b.ID`; whenever it answers 400 or 409 the map is the one it started
from. -/
theorem createBook_outcomes (m : GoMap Book) (body : BookBody) (herr : body.err = false) :
    ((createBook m body).1.status = StatusBadRequest ↔ (body.decodeInto Book.zero).ID = []) ∧
    ((createBook m body).1.status = StatusConflict ↔
      (body.decodeInto Book.zero).ID ≠ [] ∧ m.has (body.decodeInto Book.zero).ID = true) ∧
    (((body.decodeInto Book.zero).ID ≠ [] ∧ m.has (body.decodeInto Book.zero).ID = false) →
      createBook m body =
        (⟨StatusCreated, .book (body.decodeInto Book.zero)⟩,
         m.set (body.decodeInto Book.zero).ID (body.decodeInto Book.zero))) ∧
    (((createBook m body).1.status = StatusBadRequest ∨
        (createBook m body).1.status = StatusConflict) → (createBook m body).2 = m) := by
  unfold createBook
  simp only [herr]
  by_cases hid : (body.decodeInto Book.zero).ID = []
  · simp [hid, httpError, StatusBadRequest, StatusConflict]
  · by_cases hhas : m.has (body.decodeInto Book.zero).ID = true
    · simp [hid, hhas, httpError, StatusBadRequest, StatusConflict]
    · simp [hid, hhas, httpError, StatusBadRequest, StatusConflict, StatusCreated]

/-- C3 on the initial map: a second book with id `1` is refused with 409 and
the map, with the record held under `1`, stays as it was. -/
theorem createBook_outcomes_witness :
    (createBook books (.ofBook ⟨lit "1", lit "Dune", lit "Frank Herbert"⟩)).1.status
      = StatusConflict ∧
    (createBook books (.ofBook ⟨lit "1", lit "Dune", lit "Frank Herbert"⟩)).2 = books :=
  have h := createBook_outcomes books (.ofBook ⟨lit "1", lit "Dune", lit "Frank Herbert"⟩) rfl
  have hc := h.2.1.mpr ⟨by decide, by decide⟩
  ⟨hc, h.2.2.2 (Or.inr hc)⟩

/-- C4: when the decoded book `b` has a non-empty id that is not yet a key,
`createBook` answers 201 and a following `getBookDetail` for `b.ID` with an
empty body answers 200 with a book equal to `b` in id, title and author. -/
theorem createBook_then_getBookDetail (m : GoMap Book) (body : BookBody)
    (herr : body.err = false) (hid : (body.decodeInto Book.zero).ID ≠ [])
    (hnew : m.has (body.decodeInto Book.zero).ID = false) :
    (createBook m body).1.status = StatusCreated ∧
    (getBookDetail (createBook m body).2 (body.decodeInto Book.zero).ID BookBody.none).1
      = ⟨StatusOK, .book (body.decodeInto Book.zero)⟩ := by
  have hc := (createBook_outcomes m body herr).2.2.1 ⟨hid, hnew⟩
  rw [hc]
  refine ⟨rfl, ?_⟩
  simp [getBookDetail, GoMap.has, GoMap.set_self, BookBody.none, BookBody.decodeInto]

/-- C4 on the initial map with id `1984-x`. -/
theorem createBook_then_getBookDetail_witness :
    (createBook books (.ofBook ⟨lit "1984-x", lit "1984", lit "George Orwell"⟩)).1.status
      = StatusCreated ∧
    (getBookDetail
        (createBook books (.ofBook ⟨lit "1984-x", lit "1984", lit "George Orwell"⟩)).2
        (lit "1984-x") BookBody.none).1
      = ⟨StatusOK, .book ⟨lit "1984-x", lit "1984", lit "George Orwell"⟩⟩ :=
  createBook_then_getBookDetail books
    (.ofBook ⟨lit "1984-x", lit "1984", lit "George Orwell"⟩) rfl (by decide) (by decide)

/-! ## `updateBook` and `getBookDetail` -/

/-- C5: `updateBook` on an id that is not a key answers 404 and leaves the map
as it was; on a key holding `old` it answers 200 with, and stores under that
id, the record whose id is the path id and whose title and author are those of
the body where the body has them and those of `old` where it does not; every
other key keeps its record. -/
theorem updateBook_outcomes (m : GoMap Book) (id : GoString) (body : BookBody) :
    (m id = none → updateBook m id body = (httpError (lit "Book not found") StatusNotFound, m)) ∧
    (∀ old, m id = some old →
      updateBook m id body =
        (⟨StatusOK, .book ⟨id, body.Title.getD old.Title, body.Author.getD old.Author⟩⟩,
         m.set id ⟨id, body.Title.getD old.Title, body.Author.getD old.Author⟩)) ∧
    (∀ k, k ≠ id → (updateBook m id body).2 k = m k) := by
  refine ⟨?_, ?_, ?_⟩
  · intro h
    simp [updateBook, GoMap.has, h]
  · intro old h
    simp [updateBook, GoMap.has, h, BookBody.decodeInto]
  · intro k hk
    unfold updateBook
    simp only
    split
    · rfl
    · exact GoMap.set_other _ _ _ _ hk

/-- C5 on the initial map: a PUT on `1` whose body carries id `9` and a title
but no author; and a PUT on the unknown id `7`. -/
theorem updateBook_outcomes_witness :
    updateBook books (lit "1") ⟨some (lit "9"), some (lit "Animal Farm"), none, false⟩ =
      (⟨StatusOK, .book ⟨lit "1", lit "Animal Farm", lit "George Orwell"⟩⟩,
       books.set (lit "1") ⟨lit "1", lit "Animal Farm", lit "George Orwell"⟩) ∧
    updateBook books (lit "7") ⟨some (lit "9"), some (lit "Animal Farm"), none, false⟩ =
      (httpError (lit "Book not found") StatusNotFound, books) :=
  ⟨(updateBook_outcomes books (lit "1")
      ⟨some (lit "9"), some (lit "Animal Farm"), none, false⟩).2.1
      ⟨lit "1", lit "1984", lit "George Orwell"⟩ (by decide),
   (updateBook_outcomes books (lit "7")
      ⟨some (lit "9"), some (lit "Animal Farm"), none, false⟩).1 (by decide)⟩

/-- C8: `getBookDetail` and `updateBook` give the same response and the same
resulting map for every map, path id and body; so a GET on an existing id whose
body carries a title leaves that title in the stored record, and likewise for
an author. -/
theorem getBookDetail_eq_updateBook (m : GoMap Book) (id : GoString) (body : BookBody) :
    getBookDetail m id body = updateBook m id body ∧
    (∀ t, m.has id = true → body.Title = some t →
      ∃ b, (getBookDetail m id body).2 id = some b ∧ b.Title = t) ∧
    (∀ a, m.has id = true → body.Author = some a →
      ∃ b, (getBookDetail m id body).2 id = some b ∧ b.Author = a) := by
  refine ⟨rfl, ?_, ?_⟩
  · intro t hhas ht
    simp [getBookDetail, hhas, GoMap.set_self, BookBody.decodeInto, ht]
  · intro a hhas ha
    simp [getBookDetail, hhas, GoMap.set_self, BookBody.decodeInto, ha]

/-- C8 on the initial map: a GET on `1` with a body setting the title replaces
the stored title `1984`. -/
theorem getBookDetail_eq_updateBook_witness :
    books (lit "1") = some ⟨lit "1", lit "1984", lit "George Orwell"⟩ ∧
    ∃ b, (getBookDetail books (lit "1") ⟨none, some (lit "Animal Farm"), none, false⟩).2
        (lit "1") = some b ∧ b.Title = lit "Animal Farm" :=
  ⟨by decide,
   (getBookDetail_eq_updateBook books (lit "1")
      ⟨none, some (lit "Animal Farm"), none, false⟩).2.1 (lit "Animal Farm") (by decide) rfl⟩

/-! ## `deleteBook` -/

/-- C6: `deleteBook` on a key answers 204, after which `getBookDetail` for the
same id answers 404 whatever its body; on an id that is not a key it answers
404 and leaves the map as it was. -/
theorem deleteBook_outcomes (m : GoMap Book) (id : GoString) :
    (m.has id = true →
      (deleteBook m id).1 = ⟨StatusNoContent, .empty⟩ ∧
      ∀ body, (getBookDetail (deleteBook m id).2 id body).1 =
        httpError (lit "Book not found") StatusNotFound) ∧
    (m.has id = false →
      deleteBook m id = (httpError (lit "Book not found") StatusNotFound, m)) := by
  refine ⟨?_, ?_⟩
  · intro h
    have hd : deleteBook m id = (⟨StatusNoContent, .empty⟩, m.delete id) := by
      simp [deleteBook, h]
    rw [hd]
    refine ⟨rfl, fun body => ?_⟩
    simp [getBookDetail, GoMap.has, GoMap.delete_self]
  · intro h
    simp [deleteBook, h]

/-- C6 on the initial map with id `1`, and with the unknown id `7`. -/
theorem deleteBook_outcomes_witness :
    ((deleteBook books (lit "1")).1 = ⟨StatusNoContent, .empty⟩ ∧
      ∀ body, (getBookDetail (deleteBook books (lit "1")).2 (lit "1") body).1 =
        httpError (lit "Book not found") StatusNotFound) ∧
    deleteBook books (lit "7") = (httpError (lit "Book not found") StatusNotFound, books) :=
  ⟨(deleteBook_outcomes books (lit "1")).1 (by decide),
   (deleteBook_outcomes books (lit "7")).2 (by decide)⟩

/-! ## `generateToken` -/

theorem issueToken_status_ne (signedString : MapClaims → GoString → Option GoString)
    (jwtSecret : GoString) (now : Int) (username : GoString) :
    (issueToken signedString jwtSecret now username).status ≠ StatusUnauthorized := by
  unfold issueToken
  split <;> simp [httpError, StatusInternalServerError, StatusOK, StatusUnauthorized]

/-- C7: for a login body decoded without error, `generateToken` goes on to sign
a token exactly when the username is a key of `users` and the password given
equals the one stored under it; otherwise it answers 401 with a plain message
and no token. -/
theorem generateToken_credentials (signedString : MapClaims → GoString → Option GoString)
    (jwtSecret : GoString) (now : Int) (body : CredsBody) (herr : body.err = false) :
    ((∃ u, users (body.decodeInto ⟨[], []⟩).Username = some u ∧
          u.Password = (body.decodeInto ⟨[], []⟩).Password) →
      generateToken signedString jwtSecret now body =
        issueToken signedString jwtSecret now (body.decodeInto ⟨[], []⟩).Username) ∧
    (¬ (∃ u, users (body.decodeInto ⟨[], []⟩).Username = some u ∧
          u.Password = (body.decodeInto ⟨[], []⟩).Password) →
      generateToken signedString jwtSecret now body =
        httpError (lit "Invalid username or password") StatusUnauthorized) ∧
    ((∃ u, users (body.decodeInto ⟨[], []⟩).Username = some u ∧
          u.Password = (body.decodeInto ⟨[], []⟩).Password) ↔
      (generateToken signedString jwtSecret now body).status ≠ StatusUnauthorized) := by
  have hyes : (∃ u, users (body.decodeInto ⟨[], []⟩).Username = some u ∧
          u.Password = (body.decodeInto ⟨[], []⟩).Password) →
      generateToken signedString jwtSecret now body =
        issueToken signedString jwtSecret now (body.decodeInto ⟨[], []⟩).Username := by
    rintro ⟨u, hu, hp⟩
    simp [generateToken, issueToken, herr, GoMap.has, hu, hp]
  have hno : ¬ (∃ u, users (body.decodeInto ⟨[], []⟩).Username = some u ∧
          u.Password = (body.decodeInto ⟨[], []⟩).Password) →
      generateToken signedString jwtSecret now body =
        httpError (lit "Invalid username or password") StatusUnauthorized := by
    intro h
    cases hu : users (body.decodeInto ⟨[], []⟩).Username with
    | none => simp [generateToken, herr, GoMap.has, hu]
    | some u =>
      have hp : u.Password ≠ (body.decodeInto ⟨[], []⟩).Password :=
        fun hp => h ⟨u, hu, hp⟩
      simp [generateToken, herr, GoMap.has, hu, hp]
  refine ⟨hyes, hno, ?_, ?_⟩
  · intro h
    rw [hyes h]
    exact issueToken_status_ne _ _ _ _
  · intro h
    by_contra hc
    exact h (by rw [hno hc]; rfl)

/-- C7 for `admin` / `password123`, with a signer that always succeeds: the
answer is 200 with the signed token. -/
theorem generateToken_credentials_witness :
    generateToken (fun c _ => some c.username) [] 0
        ⟨some (lit "admin"), some (lit "password123"), false⟩ =
      ⟨StatusOK, .token (lit "admin")⟩ :=
  (generateToken_credentials (fun c _ => some c.username) [] 0
      ⟨some (lit "admin"), some (lit "password123"), false⟩ rfl).1
    ⟨⟨lit "1", lit "admin", lit "password123"⟩, by decide, by decide⟩

/-- A wrong password for a known user, and an unknown user, are both answered
with 401. -/
theorem generateToken_rejects_examples (signedString : MapClaims → GoString → Option GoString)
    (jwtSecret : GoString) (now : Int) :
    generateToken signedString jwtSecret now
        ⟨some (lit "admin"), some (lit "securepass"), false⟩ =
      httpError (lit "Invalid username or password") StatusUnauthorized ∧
    generateToken signedString jwtSecret now
        ⟨some (lit "root"), some (lit "password123"), false⟩ =
      httpError (lit "Invalid username or password") StatusUnauthorized := by
  have hu : users (lit "admin") = some ⟨lit "1", lit "admin", lit "password123"⟩ := by decide
  have hp : lit "password123" ≠ lit "securepass" := by decide
  have hr : users (lit "root") = none := by decide
  constructor
  · simp [generateToken, GoMap.has, CredsBody.decodeInto, hu, hp]
  · simp [generateToken, GoMap.has, CredsBody.decodeInto, hr]

/-! ## More on `authMiddleware` -/

/-- An absent header is answered with 401 and the wrapped handler is not
called. -/
theorem authMiddleware_absent_header (tokenOk : GoString → Bool) :
    authMiddleware tokenOk [] =
      .response (httpError (lit "Missing token") StatusUnauthorized) := by
  simp [authMiddleware]

end BasicGolangApi
